import Mathlib

/-!
Shallow embedding of the image-map-generator request pipeline.

Embedded code:
* the no-op echo variant of `POST /api/generate` (src/backend/test-server.js,
  first server), here `echoHandler`;
* the single-provider validating variant (src/backend/test-server.js,
  second server), here `validatingHandler`;
* the multi-provider variant (src/unnamed/part_000, `server.js`),
  here `serverHandler`;
* the frontend request construction and result display
  (src/frontend/src/pages/MapboxAIGenerator/MapboxAIGenerator.tsx),
  here `captureMapCanvas`, `buildRequest`, `generateImage`.

JSON/JS values are modelled by `JVal` with rationals standing for the
IEEE doubles of the source: every arithmetic step the handlers perform on
sizes (`len * 0.75`, division by `1024 * 1024`, `toFixed(2)`) is exact on
dyadic rationals for all string lengths in range, so the rational model
agrees with the double semantics on those operations.  External effects
(the Gemini SDK call, the wall clock, `Math.random`) are passed in as
explicit parameters.  Logging, the simulated delay and CORS middleware
have no observable effect on responses and are not modelled; prompt
strings are only handed to the external SDK, which is modelled by the
`GeminiOutcome` parameter, so their full text is not reproduced here.
-/

/-- A JSON-ish JavaScript value as it appears in a parsed request body
(`express.json` output destructured by the handlers).  Absent keys
destructure to `undef`.  Numbers are modelled by rationals. -/
inductive JVal where
  | undef
  | null
  | bool (b : Bool)
  | num (q : ℚ)
  | str (s : String)
deriving DecidableEq

/-- JavaScript truthiness of a `JVal` (NaN does not arise from JSON). -/
def JVal.truthy : JVal → Bool
  | .undef => false
  | .null => false
  | .bool b => b
  | .num q => if q = 0 then false else true
  | .str s => if s = "" then false else true

/-- Whether `typeof v === 'undefined'`. -/
def JVal.isUndef : JVal → Bool
  | .undef => true
  | _ => false

/-- Whether the value is a JavaScript number. -/
def JVal.isNum : JVal → Bool
  | .num _ => true
  | _ => false

/-- JS ToString as used in template literals.  The handlers only ever
interpolate request fields into strings; for numbers the exact double
formatting is approximated by the rational rendering (no claim inspects
a numerically-interpolated string). -/
def JVal.toStr : JVal → String
  | .undef => "undefined"
  | .null => "null"
  | .bool b => if b then "true" else "false"
  | .num q => toString q
  | .str s => s

/-- The `location` object of a request body: `lat`/`lng` keys, absent
keys read as `undef`. -/
structure LocObj where
  lat : JVal
  lng : JVal
deriving DecidableEq

/-- The `location` field of a request body.  `nullish` covers
`undefined`/`null` (property access throws); `prim` covers other
non-object values (properties read as `undefined`); `obj` is a real
object with `lat`/`lng` keys. -/
inductive LocVal where
  | nullish
  | prim (v : JVal)
  | obj (o : LocObj)
deriving DecidableEq

/-- Truthiness of the `location` value. -/
def LocVal.truthy : LocVal → Bool
  | .nullish => false
  | .prim v => v.truthy
  | .obj _ => true

/-- Reading `location.lat` when `location` is known non-nullish
(as after a `!location ||` guard). -/
def LocVal.lat : LocVal → JVal
  | .obj o => o.lat
  | _ => JVal.undef

/-- Reading `location.lng` when `location` is known non-nullish. -/
def LocVal.lng : LocVal → JVal
  | .obj o => o.lng
  | _ => JVal.undef

/-- The destructured request body
`const { imageData, pitch, bearing, zoom, location } = req.body`. -/
structure RequestBody where
  imageData : JVal
  pitch : JVal
  bearing : JVal
  zoom : JVal
  location : LocVal
deriving DecidableEq

/-- Outcome of the external Gemini SDK call: the text of
`result.response.text()` on success, or the thrown error (including the
locally thrown `No response from Gemini API`) on failure. -/
structure GeminiError where
  message : String
  status : Option Nat := none
deriving DecidableEq

/-- The delegate result fed to the handlers that call the SDK. -/
abbrev GeminiOutcome := Except GeminiError String

/-- The JSON response a handler sends, flattened: absent fields are
`none`.  `error` is the string-valued top-level `error` field of 400/500
bodies; `errorMessage` is `error.message` of the graceful-failure body.
Fields that only echo logs (`received`, `details`, `note`) are omitted. -/
structure Response where
  status : Nat
  success : Option Bool := none
  error : Option String := none
  errorMessage : Option String := none
  image : Option String := none
  description : Option String := none
  size : Option String := none
  limit : Option String := none
  metaLocation : Option LocVal := none
  metaCamera : Option (JVal × JVal × JVal) := none
  metaImageSize : Option String := none
  metaModel : Option String := none
  metaTimestamp : Option String := none
deriving DecidableEq

/-- Floor of a nonnegative rational: integer division of numerator by
denominator. -/
def ratFloorNonneg (q : ℚ) : Nat := q.num.toNat / q.den

/-- The integer ECMAScript `toFixed` picks for a nonnegative value:
round to `f` places, half up. -/
def toFixedN (f : Nat) (q : ℚ) : Nat := ratFloorNonneg (q * 10 ^ f + 1 / 2)

/-- Left-pad a digit string with zeros to width `f`. -/
def padZeros (f : Nat) (s : String) : String :=
  if s.length < f then String.mk (List.replicate (f - s.length) '0') ++ s else s

/-- Decimal rendering of `Number.prototype.toFixed` for a nonnegative
value. -/
def toFixedCore (f : Nat) (q : ℚ) : String :=
  let n := toFixedN f q
  if f = 0 then toString n
  else toString (n / 10 ^ f) ++ "." ++ padZeros f (toString (n % 10 ^ f))

/-- JS `x.toFixed(f)`: sign-magnitude, magnitude rounded half up. -/
def jsToFixed (f : Nat) (q : ℚ) : String :=
  if q < 0 then "-" ++ toFixedCore f (-q) else toFixedCore f q

/-- The numeric value denoted by the string `jsToFixed f q`, i.e. what
`Number()` coercion recovers when the string is compared to a number. -/
def jsToFixedVal (f : Nat) (q : ℚ) : ℚ :=
  if q < 0 then -((toFixedN f (-q) : ℚ) / 10 ^ f)
  else (toFixedN f q : ℚ) / 10 ^ f

/-- `const sizeInBytes = imageData.length * 0.75` followed by
`sizeInBytes / (1024 * 1024)`; `none` models the NaN produced when
`imageData` is a non-string (its `.length` is `undefined`). -/
def sizeMBOf : JVal → Option ℚ
  | .str s => some ((s.length : ℚ) * (3 / 4) / 1048576)
  | _ => none

/-- `(sizeInBytes / (1024 * 1024)).toFixed(2)`: the `sizeInMB` string. -/
def sizeStrOf (v : JVal) : String :=
  match sizeMBOf v with
  | some q => jsToFixed 2 q
  | none => "NaN"

/-- The size gate `if (sizeInMB > 15)` of the validating variant: the
string `sizeInMB` is loosely coerced back to a number for `>`. -/
def sizeGate (v : JVal) : Bool :=
  match sizeMBOf v with
  | some q => decide (jsToFixedVal 2 q > 15)
  | none => false

/-- `v.toFixed(4)` as the echo templates call it on `location.lat` and
`location.lng`: a TypeError is thrown unless `v` is a number. -/
def JVal.toFixed4 : JVal → Except String String
  | .num q => .ok (jsToFixed 4 q)
  | _ => .error "TypeError: toFixed is not a function"

/-- JS `v > c` against a number literal.  Non-numeric comparands are
approximated by the NaN comparison (false); this only selects wording
inside one echo template and never throws. -/
def JVal.gtNum (v : JVal) (c : ℚ) : Bool :=
  match v with
  | .num q => decide (q > c)
  | _ => false

/-- The fixed suffix appended to every echo description. -/
def echoNote : String :=
  "\n\n⚠️ Note: This is the original map image. To get AI-generated 3D visualization, you need to configure Gemini API or use another AI service."

/-- The `descriptions` template array of the echo variant.  Building the
array evaluates `location.lat.toFixed(4)` and `location.lng.toFixed(4)`
unconditionally, so it throws when either is not a number. -/
def echoDescriptions (lat lng pitch bearing zoom : JVal) :
    Except String (List String) :=
  match lat.toFixed4 with
  | .error m => .error m
  | .ok latS =>
    match lng.toFixed4 with
    | .error m => .error m
    | .ok lngS =>
      let persp := if pitch.gtNum 60 then "bird\x27s eye" else "street-level"
      .ok
        [ "Captured stunning aerial view of urban landscape at " ++ latS ++ "°N, " ++ lngS ++ "°E"
        , "Beautiful " ++ persp ++ " perspective of the cityscape"
        , "Map view rendered with " ++ bearing.toStr ++ "° rotation, showing intricate urban details"
        , "High-definition capture at zoom level " ++ zoom.toStr ++ ", revealing architectural patterns"
        , "Photographic simulation of urban environment with " ++ pitch.toStr ++ "° pitch angle"
        ]

/-- The no-op echo variant of `POST /api/generate` (first server of
src/backend/test-server.js).  `rand` is `Math.floor(Math.random() * 5)`,
`now` the ISO timestamp taken when the response is built. -/
def echoHandler (b : RequestBody) (rand : Fin 5) (now : String) : Response :=
  if !b.imageData.truthy then
    { status := 400, error := some "No image data provided" }
  else if !b.location.truthy || b.location.lat.isUndef || b.location.lng.isUndef then
    { status := 400, error := some "Invalid location data" }
  else
    match echoDescriptions b.location.lat b.location.lng b.pitch b.bearing b.zoom with
    | .error msg => { status := 500, error := some msg }
    | .ok descs =>
      { status := 200
      , success := some true
      , image := some ("data:image/png;base64," ++ b.imageData.toStr)
      , description := some (descs.getD rand.val "" ++ echoNote)
      , metaLocation := some b.location
      , metaCamera := some (b.pitch, b.bearing, b.zoom)
      , metaImageSize := some (sizeStrOf b.imageData ++ " MB")
      , metaTimestamp := some now }

/-- The single-provider validating variant of `POST /api/generate`
(second server of src/backend/test-server.js). -/
def validatingHandler (b : RequestBody) (gemini : GeminiOutcome) (now : String) :
    Response :=
  if !b.imageData.truthy then
    { status := 400, error := some "No image data provided" }
  else if !b.location.truthy || !b.location.lat.truthy || !b.location.lng.truthy then
    { status := 400, error := some "Invalid location data" }
  else if sizeGate b.imageData then
    { status := 400
    , error := some "Image too large. Please zoom out or reduce resolution."
    , size := some (sizeStrOf b.imageData ++ " MB")
    , limit := some "15 MB" }
  else
    match gemini with
    | .ok description =>
      { status := 200
      , success := some true
      , image := some ("data:image/png;base64," ++ b.imageData.toStr)
      , description := some description
      , metaLocation := some b.location
      , metaCamera := some (b.pitch, b.bearing, b.zoom)
      , metaImageSize := some (sizeStrOf b.imageData ++ " MB")
      , metaModel := some "gemini-1.5-flash"
      , metaTimestamp := some now }
    | .error e =>
      { status := 200
      , success := some false
      , image := some ("data:image/png;base64," ++ b.imageData.toStr)
      , description := some ("⚠️ AI generation failed: " ++ e.message ++ "\n\nReturning original map image.")
      , errorMessage := some e.message
      , metaLocation := some b.location
      , metaCamera := some (b.pitch, b.bearing, b.zoom)
      , metaTimestamp := some now }

/-- The multi-provider variant of `POST /api/generate`
(src/unnamed/part_000, `server.js`).  It validates only `imageData`;
its first `console.log` template reads `location.lat` on a possibly
nullish `location`, whose TypeError lands in the outer catch, and a
Gemini failure also lands in the outer catch, which answers 500 with
`error.message || 'Failed to generate image'`. -/
def serverHandler (b : RequestBody) (gemini : GeminiOutcome) (now : String) :
    Response :=
  if !b.imageData.truthy then
    { status := 400, error := some "No image data provided" }
  else
    match b.location with
    | .nullish =>
      { status := 500
      , error := some "TypeError: Cannot read properties of undefined (reading \x27lat\x27)" }
    | _ =>
      match gemini with
      | .ok description =>
        { status := 200
        , success := some true
        , image := some ("data:image/png;base64," ++ b.imageData.toStr)
        , description := some description
        , metaLocation := some b.location
        , metaCamera := some (b.pitch, b.bearing, b.zoom)
        , metaTimestamp := some now }
      | .error e =>
        { status := 500
        , error := some (if e.message = "" then "Failed to generate image" else e.message) }

/-- `captureMapCanvas` of the frontend page: `canvas.toDataURL('image/png')`,
whose result is the base64 PNG payload wrapped in a data-URL header.
`png64` stands for the base64 encoding of the canvas PNG bytes. -/
def captureMapCanvas (png64 : String) : String :=
  "data:image/png;base64," ++ png64

/-- The request body the frontend submits (the `JSON.stringify` body in
`generateImage`): the captured data URL is sent as `imageData` verbatim,
camera state is coerced with `Number()` (numeric here), and the
`lat`/`lng` state values are sent as-is. -/
def buildRequest (png64 : String) (pitch bearing zoom : ℚ) (lat lng : JVal) :
    RequestBody :=
  { imageData := .str (captureMapCanvas png64)
  , pitch := .num pitch
  , bearing := .num bearing
  , zoom := .num zoom
  , location := .obj { lat := lat, lng := lng } }

/-- What the frontend ends up showing: the component state after
`generateImage` resolves. -/
structure FrontendOutcome where
  generatedImage : Option String
  error : Option String
deriving DecidableEq

/-- The tail of the frontend `generateImage` flow: on `response.ok`
(status 200–299) it runs `setGeneratedImage(mapImage)` with the locally
captured data URL; otherwise it throws `API call failed` into the local
catch, which stores the error message. -/
def generateImage (png64 : String) (resp : Response) : FrontendOutcome :=
  if 200 ≤ resp.status && resp.status < 300 then
    { generatedImage := some (captureMapCanvas png64), error := none }
  else
    { generatedImage := none, error := some "API call failed" }

/-! Concrete request bodies used by counterexamples and witnesses. -/

/-- A small well-formed request accepted by every variant. -/
def okBody : RequestBody :=
  { imageData := .str "AAAA"
  , pitch := .num 60
  , bearing := .num 0
  , zoom := .num 15
  , location := .obj { lat := .num 21, lng := .num 105 } }

/-- A base64 payload of 41943040 characters: estimated decoded size
`41943040 * 0.75` bytes = exactly 30 MB, past the 15 MB limit. -/
def bigImage : String := String.mk (List.replicate 41943040 'A')

/-- `okBody` with the oversized payload. -/
def bigBody : RequestBody :=
  { imageData := .str bigImage
  , pitch := .num 60
  , bearing := .num 0
  , zoom := .num 15
  , location := .obj { lat := .num 21, lng := .num 105 } }

/-- A well-formed request sitting on the equator: `lat` is the number 0. -/
def zeroBody : RequestBody :=
  { imageData := .str "AAAA"
  , pitch := .num 60
  , bearing := .num 0
  , zoom := .num 15
  , location := .obj { lat := .num 0, lng := .num 105 } }

/-- A request whose `location.lat` is a JSON string, not a number. -/
def strLatBody : RequestBody :=
  { imageData := .str "AAAA"
  , pitch := .num 60
  , bearing := .num 0
  , zoom := .num 15
  , location := .obj { lat := .str "21.0278", lng := .num 105 } }

/-- Another request with a non-numeric `location.lat`. -/
def strLatBody2 : RequestBody :=
  { imageData := .str "img"
  , pitch := .num 60
  , bearing := .num 0
  , zoom := .num 15
  , location := .obj { lat := .str "abc", lng := .num 1 } }

/-- A request with no `imageData` and no `location` at all. -/
def noImgBody : RequestBody :=
  { imageData := JVal.undef
  , pitch := JVal.undef
  , bearing := JVal.undef
  , zoom := JVal.undef
  , location := .nullish }

/-- A request whose `pitch` is the JSON string "60", not a number. -/
def strPitchBody : RequestBody :=
  { imageData := .str "AAAA"
  , pitch := .str "60"
  , bearing := .num 0
  , zoom := .num 15
  , location := .obj { lat := .num 21, lng := .num 105 } }

/-! Helper lemmas: reduction of the rational `toFixed` pipeline to
natural-number arithmetic, and facts about the concrete bodies. -/

/-- `ratFloorNonneg` agrees with the mathematical floor on nonnegative
rationals. -/
theorem ratFloorNonneg_eq_floor (q : ℚ) (h : 0 ≤ q) : (ratFloorNonneg q : ℤ) = ⌊q⌋ := by
  have hq : ⌊q⌋ = q.num / (q.den : ℤ) := by
    conv_lhs => rw [← Rat.num_div_den q]
    exact Rat.floor_intCast_div_natCast q.num q.den
  have hnum : q.num = (q.num.toNat : ℤ) := (Int.toNat_of_nonneg (Rat.num_nonneg.mpr h)).symm
  rw [hq, hnum, ← Int.ofNat_ediv]
  rfl

/-- The rounded hundredths integer of the MB size estimate of a payload
of length `len`, as one natural-number division. -/
theorem toFixedN_sizeMB (len : ℕ) :
    toFixedN 2 ((len : ℚ) * (3 / 4) / 1048576) = (600 * len + 4194304) / 8388608 := by
  have harg : ((len : ℚ) * (3 / 4) / 1048576) * 10 ^ 2 + 1 / 2
      = ((600 * len + 4194304 : ℕ) : ℚ) / ((8388608 : ℕ) : ℚ) := by
    push_cast
    ring
  unfold toFixedN
  rw [harg]
  have h0 : (0 : ℚ) ≤ ((600 * len + 4194304 : ℕ) : ℚ) / ((8388608 : ℕ) : ℚ) := by positivity
  have h1 := ratFloorNonneg_eq_floor _ h0
  rw [Rat.floor_natCast_div_natCast, ← Int.ofNat_ediv] at h1
  exact_mod_cast h1

/-- The numeric value the gate compares against 15, in closed form. -/
theorem jsToFixedVal_sizeMB (len : ℕ) :
    jsToFixedVal 2 ((len : ℚ) * (3 / 4) / 1048576)
      = (((600 * len + 4194304) / 8388608 : ℕ) : ℚ) / 100 := by
  have hge : ¬ ((len : ℚ) * (3 / 4) / 1048576 < 0) := not_lt.mpr (by positivity)
  unfold jsToFixedVal
  rw [if_neg hge, toFixedN_sizeMB]
  norm_num

/-- The size gate reduced to a natural-number comparison. -/
theorem sizeGate_str (s : String) :
    sizeGate (.str s) = decide (1500 < (600 * s.length + 4194304) / 8388608) := by
  show decide (jsToFixedVal 2 ((s.length : ℚ) * (3 / 4) / 1048576) > 15) = _
  rw [jsToFixedVal_sizeMB]
  rw [decide_eq_decide]
  rw [gt_iff_lt, lt_div_iff₀ (by norm_num : (0:ℚ) < 100)]
  norm_cast

theorem bigImage_length : bigImage.length = 41943040 := by
  show (List.replicate 41943040 'A').length = 41943040
  exact List.length_replicate ..

theorem bigImage_ne_empty : bigImage ≠ "" := by
  intro h
  have h2 := congrArg String.length h
  rw [bigImage_length] at h2
  simp at h2

theorem bigImage_truthy : JVal.truthy (.str bigImage) = true := by
  simp [JVal.truthy, bigImage_ne_empty]

/-- A 4-character payload is far below the 15 MB gate. -/
theorem smallGate : sizeGate (.str "AAAA") = false := by
  rw [sizeGate_str]
  decide

/-- Building the echo template array fails whenever `location.lat` or
`location.lng` is not a number. -/
theorem echoDescriptions_error (lat lng pitch bearing zoom : JVal)
    (h : lat.isNum = false ∨ lng.isNum = false) :
    ∃ m, echoDescriptions lat lng pitch bearing zoom = .error m := by
  rcases h with h | h
  · cases lat <;> simp_all [echoDescriptions, JVal.isNum, JVal.toFixed4]
  · cases lat <;> cases lng <;>
      simp_all [echoDescriptions, JVal.isNum, JVal.toFixed4]

theorem append_ne_empty_right (s t : String) (h : t ≠ "") : s ++ t ≠ "" := by
  intro hc
  cases s with | mk sd => cases t with | mk td =>
  apply h
  have hd : sd ++ td = ([] : List Char) := congrArg String.data hc
  have h2 := List.append_eq_nil.mp hd
  exact congrArg String.mk h2.2

theorem echoNote_ne_empty : echoNote ≠ "" := by decide

/-- On `okBody`, a failing backend still yields a 200 in the validating
variant. -/
theorem okBody_gfail_status (e : GeminiError) (now : String) :
    (validatingHandler okBody (.error e) now).status = 200 := by
  unfold validatingHandler
  rw [show okBody.imageData.truthy = true by decide,
    show okBody.location.truthy = true by decide,
    show okBody.location.lat.truthy = true by decide,
    show okBody.location.lng.truthy = true by decide,
    show sizeGate okBody.imageData = false from smallGate]
  simp

/-! Claim theorems. -/

/-- Claim C1, counterexample: in the multi-provider variant a backend
failure on a valid request is answered with HTTP 500, not with a 200
carrying `success:false`, so a backend failure can produce a 5xx in that
variant. -/
theorem C1_counterexample :
    (serverHandler okBody (.error { message := "backend down" }) "T").status = 500 ∧
    ¬ ((serverHandler okBody (.error { message := "backend down" }) "T").status = 200 ∧
        (serverHandler okBody (.error { message := "backend down" }) "T").success
          = some false) := by
  exact ⟨by decide, by decide⟩

/-- Claim C1, amended: for every request that passes validation and the
size gate of the single-provider validating variant, a backend failure is
answered with HTTP 200, `success:false`, `image` set to the data-URL
re-wrapping of the request `imageData`, and a description embedding the
backend failure reason text; the multi-provider variant instead answers
such a failure with a 500. -/
theorem C1_amended (b : RequestBody) (e : GeminiError) (now : String)
    (himg : b.imageData.truthy = true)
    (hloc : b.location.truthy = true)
    (hlat : b.location.lat.truthy = true)
    (hlng : b.location.lng.truthy = true)
    (hgate : sizeGate b.imageData = false) :
    (validatingHandler b (.error e) now).status = 200 ∧
    (validatingHandler b (.error e) now).success = some false ∧
    (validatingHandler b (.error e) now).image =
      some ("data:image/png;base64," ++ b.imageData.toStr) ∧
    (validatingHandler b (.error e) now).description =
      some ("⚠️ AI generation failed: " ++ e.message ++ "\n\nReturning original map image.") ∧
    (serverHandler b (.error e) now).status = 500 := by
  have hV : validatingHandler b (.error e) now =
      { status := 200
      , success := some false
      , image := some ("data:image/png;base64," ++ b.imageData.toStr)
      , description :=
          some ("⚠️ AI generation failed: " ++ e.message ++ "\n\nReturning original map image.")
      , errorMessage := some e.message
      , metaLocation := some b.location
      , metaCamera := some (b.pitch, b.bearing, b.zoom)
      , metaTimestamp := some now } := by
    unfold validatingHandler
    rw [himg, hloc, hlat, hlng, hgate]
    simp
  have hS : (serverHandler b (.error e) now).status = 500 := by
    unfold serverHandler
    rw [himg]
    rcases b.location with _ | v | o <;> simp
  rw [hV]
  exact ⟨rfl, rfl, rfl, rfl, hS⟩

/-- Claim C1, witness: the amended statement at `okBody` with a failing
backend. -/
theorem C1_witness :
    (validatingHandler okBody (.error { message := "backend down" }) "T").status = 200 ∧
    (validatingHandler okBody (.error { message := "backend down" }) "T").success = some false ∧
    (validatingHandler okBody (.error { message := "backend down" }) "T").image =
      some ("data:image/png;base64," ++ (JVal.str "AAAA").toStr) ∧
    (validatingHandler okBody (.error { message := "backend down" }) "T").description =
      some ("⚠️ AI generation failed: " ++ "backend down" ++ "\n\nReturning original map image.") ∧
    (serverHandler okBody (.error { message := "backend down" }) "T").status = 500 :=
  C1_amended okBody { message := "backend down" } "T" (by decide) (by decide) (by decide)
    (by decide) smallGate

/-- Claim C2, counterexample: in the multi-provider variant the
backend-failure path of a valid request is a 500 whose body has no
`image` field at all, so the data-URL passthrough does not hold on every
backend-failure path of every variant. -/
theorem C2_counterexample :
    (serverHandler okBody (.error { message := "backend down" }) "T").status = 500 ∧
    (serverHandler okBody (.error { message := "backend down" }) "T").image = none := by
  exact ⟨by decide, by decide⟩

/-- Claim C2, amended: for every request whose `imageData` is the string
`s`, in all three variants a response carries
`image = "data:image/png;base64," ++ s` exactly when its status is 200;
this covers the echo success path, the validating variant success and
graceful-failure paths, and the multi-provider success path, while every
400/500 response (including the multi-provider backend-failure 500)
carries no image. -/
theorem C2_amended (b : RequestBody) (s : String) (hs : b.imageData = .str s)
    (r : Fin 5) (now : String) (g : GeminiOutcome) :
    ((echoHandler b r now).image = some ("data:image/png;base64," ++ s) ↔
      (echoHandler b r now).status = 200) ∧
    ((validatingHandler b g now).image = some ("data:image/png;base64," ++ s) ↔
      (validatingHandler b g now).status = 200) ∧
    ((serverHandler b g now).image = some ("data:image/png;base64," ++ s) ↔
      (serverHandler b g now).status = 200) := by
  refine ⟨?_, ?_, ?_⟩
  · unfold echoHandler
    rcases hE : echoDescriptions b.location.lat b.location.lng b.pitch b.bearing b.zoom
      with m | l <;> split_ifs with h1 h2 <;> simp_all [JVal.toStr]
  · unfold validatingHandler
    rcases g with e | t <;> split_ifs with h1 h2 h3 <;> simp_all [JVal.toStr]
  · unfold serverHandler
    rcases hL : b.location with _ | v | o <;> rcases g with e | t <;>
      split_ifs with h1 <;> simp_all [JVal.toStr]

/-- Claim C2, witness: the amended statement at `okBody`. -/
theorem C2_witness :
    ((echoHandler okBody 0 "T").image = some ("data:image/png;base64," ++ "AAAA") ↔
      (echoHandler okBody 0 "T").status = 200) ∧
    ((validatingHandler okBody (.ok "d") "T").image
        = some ("data:image/png;base64," ++ "AAAA") ↔
      (validatingHandler okBody (.ok "d") "T").status = 200) ∧
    ((serverHandler okBody (.ok "d") "T").image = some ("data:image/png;base64," ++ "AAAA") ↔
      (serverHandler okBody (.ok "d") "T").status = 200) :=
  C2_amended okBody "AAAA" rfl 0 "T" (.ok "d")

/-- Claim C3, counterexample: a request whose `location.lat` is the
non-numeric string "abc" is, per the claim, to be rejected with a 400
validation error, but the echo variant lets it pass validation and then
answers 500 (the template TypeError), not 400. -/
theorem C3_counterexample :
    (strLatBody2.location.lat.isNum = false) ∧
    (echoHandler strLatBody2 0 "T").status = 500 ∧
    (echoHandler strLatBody2 0 "T").status ≠ 400 := by
  refine ⟨by decide, ?_, ?_⟩ <;>
  · obtain ⟨m, hm⟩ := echoDescriptions_error (.str "abc") (.num 1) (.num 60) (.num 0) (.num 15)
      (Or.inl (by decide))
    simp [echoHandler, strLatBody2, JVal.truthy, LocVal.truthy, LocVal.lat, LocVal.lng,
      JVal.isUndef, hm]

/-- Claim C3, amended: the 400 validation rejections are characterized
per variant and never test for non-numeric coordinates — the echo
variant rejects exactly when `imageData` is falsy, `location` is falsy,
or `location.lat`/`location.lng` is `undefined`; the validating variant
rejects (with a non-size 400) exactly when `imageData` is falsy or
`location`, `location.lat` or `location.lng` is falsy; the
multi-provider variant rejects with 400 exactly when `imageData` is
falsy. -/
theorem C3_amended (b : RequestBody) (r : Fin 5) (now : String) (g : GeminiOutcome) :
    ((echoHandler b r now).status = 400 ↔
      (!b.imageData.truthy || !b.location.truthy
        || b.location.lat.isUndef || b.location.lng.isUndef) = true) ∧
    (((validatingHandler b g now).status = 400 ∧ (validatingHandler b g now).size = none) ↔
      (!b.imageData.truthy || !b.location.truthy
        || !b.location.lat.truthy || !b.location.lng.truthy) = true) ∧
    ((serverHandler b g now).status = 400 ↔ (!b.imageData.truthy) = true) := by
  refine ⟨?_, ?_, ?_⟩
  · unfold echoHandler
    rcases hE : echoDescriptions b.location.lat b.location.lng b.pitch b.bearing b.zoom
      with m | l <;> split_ifs with h1 h2 <;> simp_all
  · unfold validatingHandler
    rcases g with e | t <;> split_ifs with h1 h2 h3 <;> simp_all
  · unfold serverHandler
    rcases hL : b.location with _ | v | o <;> rcases g with e | t <;>
      split_ifs with h1 <;> simp_all

/-- Claim C3, witness: the echo characterization applied to a request
with no `imageData`. -/
theorem C3_witness : (echoHandler noImgBody 0 "T").status = 400 :=
  (C3_amended noImgBody 0 "T" (.ok "d")).1.mpr (by decide)

/-- Claim C4, counterexample: a validated request whose size estimate is
30 MB (past the 15 MB threshold) is answered 200, not 400, by the echo
variant, which computes the size only for logging and has no gate. -/
theorem C4_counterexample :
    (∃ q, sizeMBOf bigBody.imageData = some q ∧ q > 15) ∧
    (echoHandler bigBody 0 "T").status = 200 ∧
    (echoHandler bigBody 0 "T").status ≠ 400 := by
  obtain ⟨l, hl⟩ : ∃ l, echoDescriptions (.num 21) (.num 105) (.num 60) (.num 0) (.num 15)
      = .ok l := ⟨_, rfl⟩
  refine ⟨⟨30, ?_, by norm_num⟩, ?_, ?_⟩
  · show some ((bigImage.length : ℚ) * (3 / 4) / 1048576) = some 30
    rw [bigImage_length]
    norm_num
  · simp [echoHandler, bigBody, bigImage_truthy, LocVal.truthy, LocVal.lat, LocVal.lng,
      JVal.isUndef, hl]
  · simp [echoHandler, bigBody, bigImage_truthy, LocVal.truthy, LocVal.lat, LocVal.lng,
      JVal.isUndef, hl]

/-- Claim C4, amended: only the single-provider validating variant
estimates the decoded size as `length(imageData) * 0.75` bytes and
gates on it; there, every validated request whose size in MB, after the
2-decimal rounding that the string comparison `sizeInMB > 15` actually
compares, exceeds 15 is answered 400 with the `size` field holding the
rounded MB figure and the `limit` field holding "15 MB". -/
theorem C4_amended (b : RequestBody) (s : String) (g : GeminiOutcome) (now : String)
    (hs : b.imageData = .str s)
    (himg : b.imageData.truthy = true)
    (hloc : b.location.truthy = true)
    (hlat : b.location.lat.truthy = true)
    (hlng : b.location.lng.truthy = true)
    (hbig : jsToFixedVal 2 ((s.length : ℚ) * (3 / 4) / 1048576) > 15) :
    (validatingHandler b g now).status = 400 ∧
    (validatingHandler b g now).error =
      some "Image too large. Please zoom out or reduce resolution." ∧
    (validatingHandler b g now).size =
      some (jsToFixed 2 ((s.length : ℚ) * (3 / 4) / 1048576) ++ " MB") ∧
    (validatingHandler b g now).limit = some "15 MB" := by
  have hgate : sizeGate b.imageData = true := by
    rw [hs]
    show decide (jsToFixedVal 2 ((s.length : ℚ) * (3 / 4) / 1048576) > 15) = true
    exact decide_eq_true hbig
  have hV : validatingHandler b g now =
      { status := 400
      , error := some "Image too large. Please zoom out or reduce resolution."
      , size := some (sizeStrOf b.imageData ++ " MB")
      , limit := some "15 MB" } := by
    unfold validatingHandler
    rw [himg, hloc, hlat, hlng, hgate]
    simp
  rw [hV]
  refine ⟨rfl, rfl, ?_, rfl⟩
  show some (sizeStrOf b.imageData ++ " MB") = _
  rw [hs]
  rfl

/-- Claim C4, witness: the amended statement at the 30 MB request. -/
theorem C4_witness :
    (validatingHandler bigBody (.ok "d") "T").status = 400 ∧
    (validatingHandler bigBody (.ok "d") "T").error =
      some "Image too large. Please zoom out or reduce resolution." ∧
    (validatingHandler bigBody (.ok "d") "T").size =
      some (jsToFixed 2 ((bigImage.length : ℚ) * (3 / 4) / 1048576) ++ " MB") ∧
    (validatingHandler bigBody (.ok "d") "T").limit = some "15 MB" :=
  C4_amended bigBody bigImage (.ok "d") "T" rfl bigImage_truthy (by decide) (by decide)
    (by decide)
    (by rw [jsToFixedVal_sizeMB, bigImage_length]; norm_num)

/-- Claim C5, counterexample: on the backend-success path the validating
variant passes the backend text through verbatim, so when the backend
returns an empty text the envelope's `description` is the empty string,
not a non-empty one. -/
theorem C5_counterexample :
    (validatingHandler okBody (.ok "") "T").status = 200 ∧
    (validatingHandler okBody (.ok "") "T").description = some "" := by
  have hV : validatingHandler okBody (.ok "") "T" =
      { status := 200
      , success := some true
      , image := some ("data:image/png;base64," ++ (JVal.str "AAAA").toStr)
      , description := some ""
      , metaLocation := some okBody.location
      , metaCamera := some (.num 60, .num 0, .num 15)
      , metaImageSize := some (sizeStrOf (.str "AAAA") ++ " MB")
      , metaModel := some "gemini-1.5-flash"
      , metaTimestamp := some "T" } := by
    unfold validatingHandler
    rw [show okBody.imageData.truthy = true by decide,
      show okBody.location.truthy = true by decide,
      show okBody.location.lat.truthy = true by decide,
      show okBody.location.lng.truthy = true by decide,
      show sizeGate okBody.imageData = false from smallGate]
    simp [okBody]
  rw [hV]
  exact ⟨rfl, rfl⟩

/-- Claim C5, amended: every 200 envelope carries
`metadata.timestamp = now`; the echo envelope and the graceful-failure
envelope always carry a non-empty `description`, while the
backend-success envelopes (validating and multi-provider variants) carry
the backend text verbatim, hence a non-empty description only when the
backend text is non-empty. -/
theorem C5_amended (b : RequestBody) (r : Fin 5) (now : String) (t : String) (e : GeminiError) :
    ((echoHandler b r now).status = 200 →
      ∃ d, (echoHandler b r now).description = some d ∧ d ≠ "" ∧
        (echoHandler b r now).metaTimestamp = some now) ∧
    ((validatingHandler b (.error e) now).status = 200 →
      ∃ d, (validatingHandler b (.error e) now).description = some d ∧ d ≠ "" ∧
        (validatingHandler b (.error e) now).metaTimestamp = some now) ∧
    ((validatingHandler b (.ok t) now).status = 200 →
      (validatingHandler b (.ok t) now).description = some t ∧
        (validatingHandler b (.ok t) now).metaTimestamp = some now) ∧
    ((serverHandler b (.ok t) now).status = 200 →
      (serverHandler b (.ok t) now).description = some t ∧
        (serverHandler b (.ok t) now).metaTimestamp = some now) := by
  refine ⟨?_, ?_, ?_, ?_⟩
  · unfold echoHandler
    rcases hE : echoDescriptions b.location.lat b.location.lng b.pitch b.bearing b.zoom
      with m | l <;> split_ifs with h1 h2 <;> simp_all
    exact append_ne_empty_right _ _ echoNote_ne_empty
  · unfold validatingHandler
    split_ifs with h1 h2 h3 <;> simp_all
    exact append_ne_empty_right _ _ (by decide)
  · unfold validatingHandler
    split_ifs with h1 h2 h3 <;> simp_all
  · unfold serverHandler
    rcases hL : b.location with _ | v | o <;> split_ifs with h1 <;> simp_all

/-- Claim C5, witness: on `okBody` with a failing backend the
graceful-failure envelope has a non-empty description and the timestamp. -/
theorem C5_witness :
    ∃ d, (validatingHandler okBody (.error { message := "backend down" }) "T").description
        = some d ∧ d ≠ "" ∧
      (validatingHandler okBody (.error { message := "backend down" }) "T").metaTimestamp
        = some "T" :=
  (C5_amended okBody 0 "T" "d" { message := "backend down" }).2.1
    (okBody_gfail_status { message := "backend down" } "T")

/-- Claim C6, counterexample: a validation-passing request whose `pitch`
is the JSON string "60" is mirrored verbatim — the response's
`metadata.camera` holds the string "60", not a number, so the mirrored
values are not type-coerced to numeric. -/
theorem C6_counterexample :
    (validatingHandler strPitchBody (.ok "d") "T").metaCamera
        = some (.str "60", .num 0, .num 15) ∧
    (JVal.str "60").isNum = false := by
  constructor
  · unfold validatingHandler
    rw [show strPitchBody.imageData.truthy = true by decide,
      show strPitchBody.location.truthy = true by decide,
      show strPitchBody.location.lat.truthy = true by decide,
      show strPitchBody.location.lng.truthy = true by decide,
      show sizeGate strPitchBody.imageData = false from smallGate]
    simp [strPitchBody]
  · decide

/-- Claim C6, amended: in all three variants, every 200 response carries
`metadata.camera` equal to the request's `{pitch, bearing, zoom}`
verbatim, with no numeric coercion applied by the handler (the frontend
client itself coerces the three values with `Number()` before
submitting). -/
theorem C6_amended (b : RequestBody) (r : Fin 5) (now : String) (g : GeminiOutcome) :
    ((echoHandler b r now).status = 200 →
      (echoHandler b r now).metaCamera = some (b.pitch, b.bearing, b.zoom)) ∧
    ((validatingHandler b g now).status = 200 →
      (validatingHandler b g now).metaCamera = some (b.pitch, b.bearing, b.zoom)) ∧
    ((serverHandler b g now).status = 200 →
      (serverHandler b g now).metaCamera = some (b.pitch, b.bearing, b.zoom)) := by
  refine ⟨?_, ?_, ?_⟩
  · unfold echoHandler
    rcases hE : echoDescriptions b.location.lat b.location.lng b.pitch b.bearing b.zoom
      with m | l <;> split_ifs with h1 h2 <;> simp_all
  · unfold validatingHandler
    rcases g with e | t <;> split_ifs with h1 h2 h3 <;> simp_all
  · unfold serverHandler
    rcases hL : b.location with _ | v | o <;> rcases g with e | t <;>
      split_ifs with h1 <;> simp_all

/-- Claim C6, witness: the amended statement at `okBody` in the
validating variant. -/
theorem C6_witness :
    (validatingHandler okBody (.ok "d") "T").metaCamera
        = some (okBody.pitch, okBody.bearing, okBody.zoom) := by
  refine (C6_amended okBody 0 "T" (.ok "d")).2.1 ?_
  unfold validatingHandler
  rw [show okBody.imageData.truthy = true by decide,
    show okBody.location.truthy = true by decide,
    show okBody.location.lat.truthy = true by decide,
    show okBody.location.lng.truthy = true by decide,
    show sizeGate okBody.imageData = false from smallGate]
  simp

/-- Claim C7: the request the frontend submits carries as `imageData`
the full output of `canvas.toDataURL('image/png')` — that is, the
base64 payload prefixed with "data:image/png;base64," — for every
captured canvas and camera state, contradicting the claim that
`imageData` is a bare base64 string with no data-URL header (the
backends prepend that header themselves). -/
theorem C7_theorem (png64 : String) (pitch bearing zoom : ℚ) (lat lng : JVal) :
    (buildRequest png64 pitch bearing zoom lat lng).imageData =
      .str ("data:image/png;base64," ++ png64) := rfl

/-- Claim C8, counterexample: in a complete round trip against the echo
backend, the frontend shows the locally captured data URL while the
response's `image` field is the double-wrapped string; the two differ. -/
theorem C8_counterexample :
    (generateImage "AAAA" (echoHandler (buildRequest "AAAA" 60 0 15 (.num 21) (.num 105))
        0 "T")).generatedImage
      = some "data:image/png;base64,AAAA" ∧
    (echoHandler (buildRequest "AAAA" 60 0 15 (.num 21) (.num 105)) 0 "T").image
      = some "data:image/png;base64,data:image/png;base64,AAAA" ∧
    ("data:image/png;base64,AAAA" : String)
      ≠ "data:image/png;base64,data:image/png;base64,AAAA" := by
  refine ⟨by decide, by decide, by decide⟩

/-- Claim C8, amended: on every successful (2xx) round trip the frontend
displays the locally captured map data URL — a placeholder — regardless
of the `image` field of the backend response, which is only logged. -/
theorem C8_amended (png64 : String) (resp : Response)
    (hok : (200 ≤ resp.status && resp.status < 300) = true) :
    (generateImage png64 resp).generatedImage = some (captureMapCanvas png64) ∧
    (generateImage png64 resp).error = none := by
  simp [generateImage, hok]

/-- Claim C8, witness: the amended statement on a round trip against the
echo backend at `okBody`. -/
theorem C8_witness :
    (generateImage "AAAA" (echoHandler okBody 0 "T")).generatedImage
        = some (captureMapCanvas "AAAA") ∧
    (generateImage "AAAA" (echoHandler okBody 0 "T")).error = none :=
  C8_amended "AAAA" (echoHandler okBody 0 "T") (by decide)

/-- Claim C9: in the single-provider validating variant, every request
that presents `imageData` and whose `location.lat` or `location.lng` is
the number 0 is rejected with 400 "Invalid location data", because the
check `!location.lat || !location.lng` uses JavaScript truthiness and 0
is falsy. -/
theorem C9_theorem (b : RequestBody) (o : LocObj) (g : GeminiOutcome) (now : String)
    (hloc : b.location = .obj o)
    (himg : b.imageData.truthy = true)
    (hzero : o.lat = .num 0 ∨ o.lng = .num 0) :
    (validatingHandler b g now).status = 400 ∧
    (validatingHandler b g now).error = some "Invalid location data" := by
  have hcond : (!b.location.truthy || !b.location.lat.truthy
      || !b.location.lng.truthy) = true := by
    rcases hzero with h | h <;> simp [hloc, LocVal.lat, LocVal.lng, h, JVal.truthy]
  have hV : validatingHandler b g now =
      { status := 400, error := some "Invalid location data" } := by
    unfold validatingHandler
    rw [himg, hcond]
    simp
  rw [hV]
  exact ⟨rfl, rfl⟩

/-- Claim C9, witness: a request on the equator (`lat = 0`) is rejected. -/
theorem C9_witness :
    (validatingHandler zeroBody (.ok "d") "T").status = 400 ∧
    (validatingHandler zeroBody (.ok "d") "T").error = some "Invalid location data" :=
  C9_theorem zeroBody { lat := .num 0, lng := .num 105 } (.ok "d") "T" rfl (by decide)
    (Or.inl rfl)

/-- Claim C10: in the no-op echo variant, every request that passes
validation but whose `location.lat` or `location.lng` is not a number
is answered 500 rather than 200: building the template array evaluates
`location.lat.toFixed(4)` and `location.lng.toFixed(4)` unconditionally,
and the TypeError lands in the catch branch. -/
theorem C10_theorem (b : RequestBody) (o : LocObj) (r : Fin 5) (now : String)
    (hloc : b.location = .obj o)
    (himg : b.imageData.truthy = true)
    (hlat : o.lat.isUndef = false) (hlng : o.lng.isUndef = false)
    (hnum : o.lat.isNum = false ∨ o.lng.isNum = false) :
    (echoHandler b r now).status = 500 ∧ (echoHandler b r now).status ≠ 200 := by
  obtain ⟨m, hm⟩ := echoDescriptions_error o.lat o.lng b.pitch b.bearing b.zoom hnum
  have : (echoHandler b r now) = { status := 500, error := some m } := by
    unfold echoHandler
    rw [himg]
    simp [hloc, LocVal.truthy, LocVal.lat, LocVal.lng, hlat, hlng, hm]
  rw [this]
  refine ⟨rfl, ?_⟩
  show (500 : Nat) ≠ 200
  decide

/-- Claim C10, witness: a request whose `lat` is the JSON string
"21.0278" passes validation and is answered 500 by the echo variant. -/
theorem C10_witness :
    (echoHandler strLatBody 0 "T").status = 500 ∧ (echoHandler strLatBody 0 "T").status ≠ 200 :=
  C10_theorem strLatBody { lat := .str "21.0278", lng := .num 105 } 0 "T" rfl (by decide)
    (by decide) (by decide) (Or.inl (by decide))
